import Mathlib

/-
Verification of src/postgres/src/backend/libpq/be-secure.c.

The dispatch functions secure_read and secure_write are embedded as
computable functions over an explicit environment trace: a list of
`Attempt` records, one per underlying I/O attempt, giving the value the
transport returned (`n`), the errno it set, the direction the TLS
provider wrote through its waitfor out-parameter, and the event mask the
wait-set would report if the call waits at that point.  The embedding
returns both the observable effect trace (a `List Step`) and the
call's result (`RWResult`).

check_ssl_key_file_permissions is embedded over the stat(2) result
(`Option FileStat`) and the server's effective uid.
-/

namespace BeSecure

/-- Event-mask bits of the wait set, as in storage/latch.h. -/
def WL_LATCH_SET : Nat := 1

def WL_SOCKET_READABLE : Nat := 2

def WL_SOCKET_WRITEABLE : Nat := 4

def WL_TIMEOUT : Nat := 8

def WL_POSTMASTER_DEATH : Nat := 16

/-- Wait-event bookkeeping tags passed to WaitEventSetWait. -/
def WAIT_EVENT_CLIENT_READ : Nat := 0

def WAIT_EVENT_CLIENT_WRITE : Nat := 1

/-- The errno values distinguished by the retry condition in be-secure.c. -/
inductive Errno where
  | EWOULDBLOCK
  | EAGAIN
  | EINTR
  | ECONNRESET
  | other
deriving DecidableEq, Repr

/-- The retry condition tests errno == EWOULDBLOCK || errno == EAGAIN. -/
def wouldBlockErrno (e : Errno) : Bool :=
  e = Errno.EWOULDBLOCK || e = Errno.EAGAIN

/-- The fields of Port that secure_read / secure_write consult. -/
structure Port where
  ssl_in_use : Bool
  noblock : Bool
deriving DecidableEq, Repr

/-- One interaction of the loop body with its environment: the transport
result `n`, the errno left behind, the value the TLS provider stored in
`*waitfor` (consulted only when ssl_in_use), and the `events` mask the
wait would report if the loop blocks at this iteration. -/
structure Attempt where
  n : Int
  errno : Errno
  sslWaitfor : Nat
  events : Nat
deriving DecidableEq, Repr

/-- Observable actions of secure_read / secure_write, in order. -/
inductive Step where
  | be_tls_read (ptr len : Nat)
  | secure_raw_read (ptr len : Nat)
  | be_tls_write (ptr len : Nat)
  | secure_raw_write (ptr len : Nat)
  | modifyWaitEvent (waitfor : Nat)
  | waitEventSetWait (wait_event_info : Nat)
  | resetLatch
  | processClientReadInterrupt (blocking : Bool)
  | processClientWriteInterrupt (blocking : Bool)
deriving DecidableEq, Repr

/-- How a call to secure_read / secure_write ends. `ret n e` is a normal
return of `n` with errno `e` still set; `fatalAdminShutdown` is the
ereport(FATAL, errcode(ERRCODE_ADMIN_SHUTDOWN), ...) on postmaster
death, which never returns; `assertFailed` is Assert(waitfor) firing;
`outOfFuel` means the environment trace was exhausted while looping. -/
inductive RWResult where
  | ret (n : Int) (errno : Errno)
  | fatalAdminShutdown
  | assertFailed
  | outOfFuel
deriving DecidableEq, Repr

/-- The retry condition of both loops:
`n < 0 && !port->noblock && (errno == EWOULDBLOCK || errno == EAGAIN)`. -/
def retryCond (port : Port) (a : Attempt) : Prop :=
  a.n < 0 ∧ port.noblock = false ∧ wouldBlockErrno a.errno = true

instance (port : Port) (a : Attempt) : Decidable (retryCond port a) := by
  unfold retryCond; infer_instance

/-- The value `waitfor` holds in secure_read when the blocking branch is
reached: the provider's out-parameter on the SSL path, WL_SOCKET_READABLE
on the plaintext path. -/
def effWaitforRead (port : Port) (a : Attempt) : Nat :=
  if port.ssl_in_use then a.sslWaitfor else WL_SOCKET_READABLE

/-- Same for secure_write: WL_SOCKET_WRITEABLE on the plaintext path. -/
def effWaitforWrite (port : Port) (a : Attempt) : Nat :=
  if port.ssl_in_use then a.sslWaitfor else WL_SOCKET_WRITEABLE

/-- secure_read from be-secure.c, lines 141-218.  Each loop iteration
consumes one `Attempt`; USE_SSL is taken as compiled in, so the
`port->ssl_in_use` test selects be_tls_read or secure_raw_read. -/
def secure_read (port : Port) (ptr len : Nat) : List Attempt → List Step × RWResult
  | [] => ([], RWResult.outOfFuel)
  | a :: rest =>
    let ioStep := if port.ssl_in_use then Step.be_tls_read ptr len
                  else Step.secure_raw_read ptr len
    let waitfor := effWaitforRead port a
    if retryCond port a then
      if waitfor = 0 then
        ([ioStep], RWResult.assertFailed)
      else
        let pre := [ioStep, Step.modifyWaitEvent waitfor,
                    Step.waitEventSetWait WAIT_EVENT_CLIENT_READ]
        if a.events &&& WL_POSTMASTER_DEATH ≠ 0 then
          (pre, RWResult.fatalAdminShutdown)
        else if a.events &&& WL_LATCH_SET ≠ 0 then
          let k := secure_read port ptr len rest
          (pre ++ [Step.resetLatch, Step.processClientReadInterrupt true] ++ k.1, k.2)
        else
          let k := secure_read port ptr len rest
          (pre ++ k.1, k.2)
    else
      ([ioStep, Step.processClientReadInterrupt false], RWResult.ret a.n a.errno)

/-- secure_write from be-secure.c, lines 244-304. -/
def secure_write (port : Port) (ptr len : Nat) : List Attempt → List Step × RWResult
  | [] => ([], RWResult.outOfFuel)
  | a :: rest =>
    let ioStep := if port.ssl_in_use then Step.be_tls_write ptr len
                  else Step.secure_raw_write ptr len
    let waitfor := effWaitforWrite port a
    if retryCond port a then
      if waitfor = 0 then
        ([ioStep], RWResult.assertFailed)
      else
        let pre := [ioStep, Step.modifyWaitEvent waitfor,
                    Step.waitEventSetWait WAIT_EVENT_CLIENT_WRITE]
        if a.events &&& WL_POSTMASTER_DEATH ≠ 0 then
          (pre, RWResult.fatalAdminShutdown)
        else if a.events &&& WL_LATCH_SET ≠ 0 then
          let k := secure_write port ptr len rest
          (pre ++ [Step.resetLatch, Step.processClientWriteInterrupt true] ++ k.1, k.2)
        else
          let k := secure_write port ptr len rest
          (pre ++ k.1, k.2)
    else
      ([ioStep, Step.processClientWriteInterrupt false], RWResult.ret a.n a.errno)

/- ------------------------------------------------------------------ -/
/- check_ssl_key_file_permissions, be-secure.c lines 322-387.          -/
/- ------------------------------------------------------------------ -/

/-- File-mode constants from sys/stat.h. -/
def S_IFMT : Nat := 0o170000

def S_IFREG : Nat := 0o100000

def S_IFDIR : Nat := 0o040000

def S_IRWXG : Nat := 0o70

def S_IRWXO : Nat := 0o7

def S_IWGRP : Nat := 0o20

def S_IXGRP : Nat := 0o10

def S_ISREG (m : Nat) : Bool := m &&& S_IFMT == S_IFREG

/-- The stat(2) fields the check reads. -/
structure FileStat where
  st_mode : Nat
  st_uid : Nat
deriving DecidableEq, Repr

/-- The four diagnostics check_ssl_key_file_permissions can report,
in source order. -/
inductive KeyFileError where
  | couldNotAccess
  | notRegularFile
  | notOwnedByUserOrRoot
  | groupOrWorldAccess
deriving DecidableEq, Repr

/-- Outcome of check_ssl_key_file_permissions. `ok` is a `return true`;
`reject e` is ereport(LOG, e-diagnostic) followed by `return false`;
`fatal e` is ereport(FATAL, e-diagnostic), which aborts and never
returns to the caller. -/
inductive CheckResult where
  | ok
  | reject (err : KeyFileError)
  | fatal (err : KeyFileError)
deriving DecidableEq, Repr

/-- check_ssl_key_file_permissions.  `euid` is geteuid(); `st` is the
stat(2) result for ssl_key_file (`none` when stat returned nonzero).
The non-Windows build is modelled, so the ownership and mode checks are
compiled in.  loglevel = isServerStart ? FATAL : LOG. -/
def check_ssl_key_file_permissions (euid : Nat) (st : Option FileStat)
    (isServerStart : Bool) : CheckResult :=
  let report := fun e => if isServerStart then CheckResult.fatal e else CheckResult.reject e
  match st with
  | none => report KeyFileError.couldNotAccess
  | some buf =>
    if ¬ (S_ISREG buf.st_mode = true) then
      report KeyFileError.notRegularFile
    else if buf.st_uid ≠ euid ∧ buf.st_uid ≠ 0 then
      report KeyFileError.notOwnedByUserOrRoot
    else if (buf.st_uid = euid ∧ buf.st_mode &&& (S_IRWXG ||| S_IRWXO) ≠ 0) ∨
        (buf.st_uid = 0 ∧ buf.st_mode &&& (S_IWGRP ||| S_IXGRP ||| S_IRWXO) ≠ 0) then
      report KeyFileError.groupOrWorldAccess
    else
      CheckResult.ok

/- ------------------------------------------------------------------ -/
/- Shape lemmas: one per control path of the loop bodies.              -/
/- ------------------------------------------------------------------ -/

/-- Abbreviation for the I/O step secure_read performs. -/
def readIoStep (port : Port) (ptr len : Nat) : Step :=
  if port.ssl_in_use then Step.be_tls_read ptr len else Step.secure_raw_read ptr len

/-- Abbreviation for the I/O step secure_write performs. -/
def writeIoStep (port : Port) (ptr len : Nat) : Step :=
  if port.ssl_in_use then Step.be_tls_write ptr len else Step.secure_raw_write ptr len

theorem secure_read_nil (port : Port) (ptr len : Nat) :
    secure_read port ptr len [] = ([], RWResult.outOfFuel) := rfl

theorem secure_write_nil (port : Port) (ptr len : Nat) :
    secure_write port ptr len [] = ([], RWResult.outOfFuel) := rfl

theorem secure_read_no_retry (port : Port) (ptr len : Nat) (a : Attempt)
    (rest : List Attempt) (h : ¬ retryCond port a) :
    secure_read port ptr len (a :: rest) =
      ([readIoStep port ptr len, Step.processClientReadInterrupt false],
        RWResult.ret a.n a.errno) := by
  simp [secure_read, readIoStep, h]

theorem secure_write_no_retry (port : Port) (ptr len : Nat) (a : Attempt)
    (rest : List Attempt) (h : ¬ retryCond port a) :
    secure_write port ptr len (a :: rest) =
      ([writeIoStep port ptr len, Step.processClientWriteInterrupt false],
        RWResult.ret a.n a.errno) := by
  simp [secure_write, writeIoStep, h]

theorem secure_read_assert (port : Port) (ptr len : Nat) (a : Attempt)
    (rest : List Attempt) (hc : retryCond port a) (hw : effWaitforRead port a = 0) :
    secure_read port ptr len (a :: rest) =
      ([readIoStep port ptr len], RWResult.assertFailed) := by
  simp [secure_read, readIoStep, hc, hw]

theorem secure_write_assert (port : Port) (ptr len : Nat) (a : Attempt)
    (rest : List Attempt) (hc : retryCond port a) (hw : effWaitforWrite port a = 0) :
    secure_write port ptr len (a :: rest) =
      ([writeIoStep port ptr len], RWResult.assertFailed) := by
  simp [secure_write, writeIoStep, hc, hw]

theorem secure_read_death (port : Port) (ptr len : Nat) (a : Attempt)
    (rest : List Attempt) (hc : retryCond port a) (hw : effWaitforRead port a ≠ 0)
    (hd : a.events &&& WL_POSTMASTER_DEATH ≠ 0) :
    secure_read port ptr len (a :: rest) =
      ([readIoStep port ptr len, Step.modifyWaitEvent (effWaitforRead port a),
        Step.waitEventSetWait WAIT_EVENT_CLIENT_READ], RWResult.fatalAdminShutdown) := by
  simp [secure_read, readIoStep, hc, hw, hd]

theorem secure_write_death (port : Port) (ptr len : Nat) (a : Attempt)
    (rest : List Attempt) (hc : retryCond port a) (hw : effWaitforWrite port a ≠ 0)
    (hd : a.events &&& WL_POSTMASTER_DEATH ≠ 0) :
    secure_write port ptr len (a :: rest) =
      ([writeIoStep port ptr len, Step.modifyWaitEvent (effWaitforWrite port a),
        Step.waitEventSetWait WAIT_EVENT_CLIENT_WRITE], RWResult.fatalAdminShutdown) := by
  simp [secure_write, writeIoStep, hc, hw, hd]

theorem secure_read_latch (port : Port) (ptr len : Nat) (a : Attempt)
    (rest : List Attempt) (hc : retryCond port a) (hw : effWaitforRead port a ≠ 0)
    (hd : a.events &&& WL_POSTMASTER_DEATH = 0)
    (hl : a.events &&& WL_LATCH_SET ≠ 0) :
    secure_read port ptr len (a :: rest) =
      (readIoStep port ptr len :: Step.modifyWaitEvent (effWaitforRead port a) ::
        Step.waitEventSetWait WAIT_EVENT_CLIENT_READ :: Step.resetLatch ::
        Step.processClientReadInterrupt true :: (secure_read port ptr len rest).1,
        (secure_read port ptr len rest).2) := by
  simp [secure_read, readIoStep, hc, hw, hd, hl]

theorem secure_write_latch (port : Port) (ptr len : Nat) (a : Attempt)
    (rest : List Attempt) (hc : retryCond port a) (hw : effWaitforWrite port a ≠ 0)
    (hd : a.events &&& WL_POSTMASTER_DEATH = 0)
    (hl : a.events &&& WL_LATCH_SET ≠ 0) :
    secure_write port ptr len (a :: rest) =
      (writeIoStep port ptr len :: Step.modifyWaitEvent (effWaitforWrite port a) ::
        Step.waitEventSetWait WAIT_EVENT_CLIENT_WRITE :: Step.resetLatch ::
        Step.processClientWriteInterrupt true :: (secure_write port ptr len rest).1,
        (secure_write port ptr len rest).2) := by
  simp [secure_write, writeIoStep, hc, hw, hd, hl]

theorem secure_read_nolatch (port : Port) (ptr len : Nat) (a : Attempt)
    (rest : List Attempt) (hc : retryCond port a) (hw : effWaitforRead port a ≠ 0)
    (hd : a.events &&& WL_POSTMASTER_DEATH = 0)
    (hl : a.events &&& WL_LATCH_SET = 0) :
    secure_read port ptr len (a :: rest) =
      (readIoStep port ptr len :: Step.modifyWaitEvent (effWaitforRead port a) ::
        Step.waitEventSetWait WAIT_EVENT_CLIENT_READ :: (secure_read port ptr len rest).1,
        (secure_read port ptr len rest).2) := by
  simp [secure_read, readIoStep, hc, hw, hd, hl]

theorem secure_write_nolatch (port : Port) (ptr len : Nat) (a : Attempt)
    (rest : List Attempt) (hc : retryCond port a) (hw : effWaitforWrite port a ≠ 0)
    (hd : a.events &&& WL_POSTMASTER_DEATH = 0)
    (hl : a.events &&& WL_LATCH_SET = 0) :
    secure_write port ptr len (a :: rest) =
      (writeIoStep port ptr len :: Step.modifyWaitEvent (effWaitforWrite port a) ::
        Step.waitEventSetWait WAIT_EVENT_CLIENT_WRITE :: (secure_write port ptr len rest).1,
        (secure_write port ptr len rest).2) := by
  simp [secure_write, writeIoStep, hc, hw, hd, hl]

/-- A wait that ends in a latch wake or a plain socket-readiness wake
passes the result of the remaining iterations through unchanged. -/
theorem secure_read_skip (port : Port) (ptr len : Nat) (a : Attempt)
    (rest : List Attempt) (hc : retryCond port a) (hw : effWaitforRead port a ≠ 0)
    (hd : a.events &&& WL_POSTMASTER_DEATH = 0) :
    (secure_read port ptr len (a :: rest)).2 = (secure_read port ptr len rest).2 := by
  by_cases hl : a.events &&& WL_LATCH_SET = 0
  · rw [secure_read_nolatch port ptr len a rest hc hw hd hl]
  · rw [secure_read_latch port ptr len a rest hc hw hd hl]

theorem secure_write_skip (port : Port) (ptr len : Nat) (a : Attempt)
    (rest : List Attempt) (hc : retryCond port a) (hw : effWaitforWrite port a ≠ 0)
    (hd : a.events &&& WL_POSTMASTER_DEATH = 0) :
    (secure_write port ptr len (a :: rest)).2 = (secure_write port ptr len rest).2 := by
  by_cases hl : a.events &&& WL_LATCH_SET = 0
  · rw [secure_write_nolatch port ptr len a rest hc hw hd hl]
  · rw [secure_write_latch port ptr len a rest hc hw hd hl]

/-- Any normal return of secure_read stems from an attempt on which the
retry condition is false, and returns that attempt's n and errno. -/
theorem secure_read_ret_attempt (port : Port) (ptr len : Nat) :
    ∀ (env : List Attempt) (n : Int) (e : Errno),
      (secure_read port ptr len env).2 = RWResult.ret n e →
      ∃ a ∈ env, a.n = n ∧ a.errno = e ∧ ¬ retryCond port a := by
  intro env
  induction env with
  | nil => intro n e h; simp [secure_read_nil] at h
  | cons a rest ih =>
    intro n e h
    by_cases hc : retryCond port a
    · by_cases hw : effWaitforRead port a = 0
      · rw [secure_read_assert port ptr len a rest hc hw] at h; simp at h
      · by_cases hd : a.events &&& WL_POSTMASTER_DEATH = 0
        · rw [secure_read_skip port ptr len a rest hc hw hd] at h
          obtain ⟨b, hb, h1, h2, h3⟩ := ih n e h
          exact ⟨b, List.mem_cons_of_mem a hb, h1, h2, h3⟩
        · rw [secure_read_death port ptr len a rest hc hw hd] at h; simp at h
    · rw [secure_read_no_retry port ptr len a rest hc] at h
      simp at h
      exact ⟨a, List.mem_cons_self a rest, h.1, h.2, hc⟩

/-- Any normal return of secure_write stems from an attempt on which the
retry condition is false, and returns that attempt's n and errno. -/
theorem secure_write_ret_attempt (port : Port) (ptr len : Nat) :
    ∀ (env : List Attempt) (n : Int) (e : Errno),
      (secure_write port ptr len env).2 = RWResult.ret n e →
      ∃ a ∈ env, a.n = n ∧ a.errno = e ∧ ¬ retryCond port a := by
  intro env
  induction env with
  | nil => intro n e h; simp [secure_write_nil] at h
  | cons a rest ih =>
    intro n e h
    by_cases hc : retryCond port a
    · by_cases hw : effWaitforWrite port a = 0
      · rw [secure_write_assert port ptr len a rest hc hw] at h; simp at h
      · by_cases hd : a.events &&& WL_POSTMASTER_DEATH = 0
        · rw [secure_write_skip port ptr len a rest hc hw hd] at h
          obtain ⟨b, hb, h1, h2, h3⟩ := ih n e h
          exact ⟨b, List.mem_cons_of_mem a hb, h1, h2, h3⟩
        · rw [secure_write_death port ptr len a rest hc hw hd] at h; simp at h
    · rw [secure_write_no_retry port ptr len a rest hc] at h
      simp at h
      exact ⟨a, List.mem_cons_self a rest, h.1, h.2, hc⟩

/-- C1: on a blocking connection (port.noblock false) neither secure_read
nor secure_write ever returns a would-block condition (negative result
with EWOULDBLOCK/EAGAIN) to the caller; and for as long as every attempt
keeps would-blocking (with a nonzero wait direction and no postmaster
death), both keep looping without returning. -/
theorem C1_blocking_absorbs_wouldblock :
    (∀ (port : Port) (ptr len : Nat) (env : List Attempt) (n : Int) (e : Errno),
      port.noblock = false →
      (secure_read port ptr len env).2 = RWResult.ret n e →
      ¬ (n < 0 ∧ wouldBlockErrno e = true)) ∧
    (∀ (port : Port) (ptr len : Nat) (env : List Attempt) (n : Int) (e : Errno),
      port.noblock = false →
      (secure_write port ptr len env).2 = RWResult.ret n e →
      ¬ (n < 0 ∧ wouldBlockErrno e = true)) ∧
    (∀ (port : Port) (ptr len : Nat) (env : List Attempt),
      (∀ a ∈ env, retryCond port a ∧ effWaitforRead port a ≠ 0 ∧
        a.events &&& WL_POSTMASTER_DEATH = 0) →
      (secure_read port ptr len env).2 = RWResult.outOfFuel) ∧
    (∀ (port : Port) (ptr len : Nat) (env : List Attempt),
      (∀ a ∈ env, retryCond port a ∧ effWaitforWrite port a ≠ 0 ∧
        a.events &&& WL_POSTMASTER_DEATH = 0) →
      (secure_write port ptr len env).2 = RWResult.outOfFuel) := by
  refine ⟨?_, ?_, ?_, ?_⟩
  · intro port ptr len env n e hnb h hcontra
    obtain ⟨a, _, h1, h2, h3⟩ := secure_read_ret_attempt port ptr len env n e h
    exact h3 ⟨h1 ▸ hcontra.1, hnb, h2 ▸ hcontra.2⟩
  · intro port ptr len env n e hnb h hcontra
    obtain ⟨a, _, h1, h2, h3⟩ := secure_write_ret_attempt port ptr len env n e h
    exact h3 ⟨h1 ▸ hcontra.1, hnb, h2 ▸ hcontra.2⟩
  · intro port ptr len env hall
    induction env with
    | nil => rfl
    | cons a rest ih =>
      obtain ⟨hc, hw, hd⟩ := hall a (List.mem_cons_self a rest)
      rw [secure_read_skip port ptr len a rest hc hw hd]
      exact ih fun b hb => hall b (List.mem_cons_of_mem a hb)
  · intro port ptr len env hall
    induction env with
    | nil => rfl
    | cons a rest ih =>
      obtain ⟨hc, hw, hd⟩ := hall a (List.mem_cons_self a rest)
      rw [secure_write_skip port ptr len a rest hc hw hd]
      exact ih fun b hb => hall b (List.mem_cons_of_mem a hb)

/-- Witness for C1 at concrete inputs: a blocking plaintext read that
returns 3 with a non-retryable errno, and one whose single attempt
would-blocks and therefore yields no return. -/
theorem C1_blocking_absorbs_wouldblock_witness :
    ¬ ((3 : Int) < 0 ∧ wouldBlockErrno Errno.other = true) ∧
    (secure_read ⟨false, false⟩ 0 5 [⟨-1, Errno.EAGAIN, 0, 0⟩]).2 = RWResult.outOfFuel :=
  ⟨C1_blocking_absorbs_wouldblock.1 ⟨false, false⟩ 0 5 [⟨3, Errno.other, 0, 0⟩] 3
      Errno.other rfl (by decide),
    C1_blocking_absorbs_wouldblock.2.2.1 ⟨false, false⟩ 0 5 [⟨-1, Errno.EAGAIN, 0, 0⟩]
      (by decide)⟩

/-- C2: check_ssl_key_file_permissions accepts a regular file with mode
0600 owned by the server's euid; rejects mode 0644 whether owned by the
server or by root, naming group-or-world access; accepts mode 0640 owned
by root; rejects mode 0640 owned by the server's euid with the
group-or-world-access diagnostic; and rejects a directory with the
not-a-regular-file diagnostic.  (euid ≠ 0: the server identity is
distinct from root.) -/
theorem C2_keyfile_examples (euid : Nat) (h : euid ≠ 0) :
    check_ssl_key_file_permissions euid (some ⟨0o100600, euid⟩) false = CheckResult.ok ∧
    check_ssl_key_file_permissions euid (some ⟨0o100644, euid⟩) false =
      CheckResult.reject KeyFileError.groupOrWorldAccess ∧
    check_ssl_key_file_permissions euid (some ⟨0o100644, 0⟩) false =
      CheckResult.reject KeyFileError.groupOrWorldAccess ∧
    check_ssl_key_file_permissions euid (some ⟨0o100640, 0⟩) false = CheckResult.ok ∧
    check_ssl_key_file_permissions euid (some ⟨0o100640, euid⟩) false =
      CheckResult.reject KeyFileError.groupOrWorldAccess ∧
    check_ssl_key_file_permissions euid (some ⟨0o040755, euid⟩) false =
      CheckResult.reject KeyFileError.notRegularFile := by
  have e1 : S_ISREG 0o100600 = true := by decide
  have e2 : S_ISREG 0o100644 = true := by decide
  have e3 : S_ISREG 0o100640 = true := by decide
  have e4 : S_ISREG 0o040755 = false := by decide
  have a1 : 0o100600 &&& (S_IRWXG ||| S_IRWXO) = 0 := by decide
  have a2 : 0o100644 &&& (S_IRWXG ||| S_IRWXO) ≠ 0 := by decide
  have a3 : 0o100644 &&& (S_IWGRP ||| S_IXGRP ||| S_IRWXO) ≠ 0 := by decide
  have a4 : 0o100640 &&& (S_IWGRP ||| S_IXGRP ||| S_IRWXO) = 0 := by decide
  have a5 : 0o100640 &&& (S_IRWXG ||| S_IRWXO) ≠ 0 := by decide
  have h0 : ¬ ((0 : Nat) = euid) := fun hh => h hh.symm
  refine ⟨?_, ?_, ?_, ?_, ?_, ?_⟩ <;>
    simp [check_ssl_key_file_permissions, e1, e2, e3, e4, a1, a2, a3, a4, a5, h, h0]

/-- Witness for C2 at euid 1000. -/
theorem C2_keyfile_examples_witness :
    check_ssl_key_file_permissions 1000 (some ⟨0o100600, 1000⟩) false = CheckResult.ok ∧
    check_ssl_key_file_permissions 1000 (some ⟨0o100644, 1000⟩) false =
      CheckResult.reject KeyFileError.groupOrWorldAccess ∧
    check_ssl_key_file_permissions 1000 (some ⟨0o100644, 0⟩) false =
      CheckResult.reject KeyFileError.groupOrWorldAccess ∧
    check_ssl_key_file_permissions 1000 (some ⟨0o100640, 0⟩) false = CheckResult.ok ∧
    check_ssl_key_file_permissions 1000 (some ⟨0o100640, 1000⟩) false =
      CheckResult.reject KeyFileError.groupOrWorldAccess ∧
    check_ssl_key_file_permissions 1000 (some ⟨0o040755, 1000⟩) false =
      CheckResult.reject KeyFileError.notRegularFile :=
  C2_keyfile_examples 1000 (by decide)

/-- C5: with isServerStart true every violation is reported at FATAL
(the function never returns false, i.e. never yields a reject outcome);
with isServerStart false every violation is reported at LOG and the
function returns false (never aborts); the diagnostic is the same in
both modes.  The embedding is a pure function of (euid, stat result),
so no trust state is mutated on the non-strict failure path. -/
theorem C5_strict_mode_semantics (euid : Nat) (st : Option FileStat) :
    (∀ e, check_ssl_key_file_permissions euid st true ≠ CheckResult.reject e) ∧
    (∀ e, check_ssl_key_file_permissions euid st false ≠ CheckResult.fatal e) ∧
    (∀ e, check_ssl_key_file_permissions euid st true = CheckResult.fatal e ↔
      check_ssl_key_file_permissions euid st false = CheckResult.reject e) := by
  refine ⟨?_, ?_, ?_⟩ <;> intro e <;>
    unfold check_ssl_key_file_permissions <;>
    cases st <;> simp <;> split <;> simp_all <;> split <;> simp_all <;> split <;> simp_all

/-- Witness for C5 at euid 1000 with a failing stat. -/
theorem C5_strict_mode_semantics_witness :
    check_ssl_key_file_permissions 1000 none true ≠
      CheckResult.reject KeyFileError.couldNotAccess ∧
    (check_ssl_key_file_permissions 1000 none true =
        CheckResult.fatal KeyFileError.couldNotAccess ↔
      check_ssl_key_file_permissions 1000 none false =
        CheckResult.reject KeyFileError.couldNotAccess) :=
  ⟨(C5_strict_mode_semantics 1000 none).1 KeyFileError.couldNotAccess,
    (C5_strict_mode_semantics 1000 none).2.2 KeyFileError.couldNotAccess⟩

/-- C6: the checks run in source order and short-circuit: a failed stat
reports could-not-access; a stat-able non-regular file reports
not-a-regular-file; a regular file owned by neither the server's euid
nor root reports the ownership diagnostic regardless of its mode bits;
a correctly-owned regular file with disallowed group/other bits reports
group-or-world access; and only when all checks pass does the function
return true. -/
theorem C6_check_order (euid : Nat) (st : Option FileStat) (b : Bool) :
    (st = none →
      check_ssl_key_file_permissions euid st b =
        (if b then CheckResult.fatal KeyFileError.couldNotAccess
          else CheckResult.reject KeyFileError.couldNotAccess)) ∧
    (∀ buf, st = some buf → S_ISREG buf.st_mode = false →
      check_ssl_key_file_permissions euid st b =
        (if b then CheckResult.fatal KeyFileError.notRegularFile
          else CheckResult.reject KeyFileError.notRegularFile)) ∧
    (∀ buf, st = some buf → S_ISREG buf.st_mode = true →
      buf.st_uid ≠ euid → buf.st_uid ≠ 0 →
      check_ssl_key_file_permissions euid st b =
        (if b then CheckResult.fatal KeyFileError.notOwnedByUserOrRoot
          else CheckResult.reject KeyFileError.notOwnedByUserOrRoot)) ∧
    (∀ buf, st = some buf → S_ISREG buf.st_mode = true →
      (buf.st_uid = euid ∨ buf.st_uid = 0) →
      ((buf.st_uid = euid ∧ buf.st_mode &&& (S_IRWXG ||| S_IRWXO) ≠ 0) ∨
        (buf.st_uid = 0 ∧ buf.st_mode &&& (S_IWGRP ||| S_IXGRP ||| S_IRWXO) ≠ 0)) →
      check_ssl_key_file_permissions euid st b =
        (if b then CheckResult.fatal KeyFileError.groupOrWorldAccess
          else CheckResult.reject KeyFileError.groupOrWorldAccess)) ∧
    (∀ buf, st = some buf → S_ISREG buf.st_mode = true →
      (buf.st_uid = euid ∨ buf.st_uid = 0) →
      ¬ ((buf.st_uid = euid ∧ buf.st_mode &&& (S_IRWXG ||| S_IRWXO) ≠ 0) ∨
        (buf.st_uid = 0 ∧ buf.st_mode &&& (S_IWGRP ||| S_IXGRP ||| S_IRWXO) ≠ 0)) →
      check_ssl_key_file_permissions euid st b = CheckResult.ok) := by
  refine ⟨?_, ?_, ?_, ?_, ?_⟩
  · intro hst; subst hst; rfl
  · intro buf hst h1; subst hst
    simp [check_ssl_key_file_permissions, h1]
  · intro buf hst h1 h2 h3; subst hst
    simp [check_ssl_key_file_permissions, h1, h2, h3]
  · intro buf hst h1 hown hperm; subst hst
    rcases hown with ho | ho <;>
      simp only [check_ssl_key_file_permissions] <;>
      rw [if_neg (by simp [h1]), if_neg (by simp [ho]), if_pos hperm]
  · intro buf hst h1 hown hperm; subst hst
    rcases hown with ho | ho <;>
      simp only [check_ssl_key_file_permissions] <;>
      rw [if_neg (by simp [h1]), if_neg (by simp [ho]), if_neg hperm]

/-- Witness for C6: a world-readable file owned by an untrusted uid is
rejected for ownership, showing the ownership check precedes the mode
check. -/
theorem C6_check_order_witness :
    check_ssl_key_file_permissions 1000 (some ⟨0o100755, 500⟩) false =
      (if false then CheckResult.fatal KeyFileError.notOwnedByUserOrRoot
        else CheckResult.reject KeyFileError.notOwnedByUserOrRoot) :=
  (C6_check_order 1000 (some ⟨0o100755, 500⟩) false).2.2.1 ⟨0o100755, 500⟩ rfl
    (by decide) (by decide) (by decide)

theorem modifyWaitEvent_ne_readIoStep (port : Port) (ptr len : Nat) (w : Nat) :
    Step.modifyWaitEvent w ≠ readIoStep port ptr len := by
  unfold readIoStep; split <;> simp

theorem modifyWaitEvent_ne_writeIoStep (port : Port) (ptr len : Nat) (w : Nat) :
    Step.modifyWaitEvent w ≠ writeIoStep port ptr len := by
  unfold writeIoStep; split <;> simp

theorem waitEventSetWait_ne_readIoStep (port : Port) (ptr len : Nat) (k : Nat) :
    Step.waitEventSetWait k ≠ readIoStep port ptr len := by
  unfold readIoStep; split <;> simp

theorem waitEventSetWait_ne_writeIoStep (port : Port) (ptr len : Nat) (k : Nat) :
    Step.waitEventSetWait k ≠ writeIoStep port ptr len := by
  unfold writeIoStep; split <;> simp

/-- C3: when a blocking wait in secure_read or secure_write observes the
postmaster-death event, the call ends at once in the distinct
admin-shutdown fatal outcome — the trace stops right after the wait,
whatever the rest of the environment holds — and this holds at whichever
iteration of the retry loop the death is first observed; the fatal
outcome is distinct from every normal return. -/
theorem C3_postmaster_death_fatal :
    (∀ (port : Port) (ptr len : Nat) (a : Attempt) (rest : List Attempt),
      retryCond port a → effWaitforRead port a ≠ 0 →
      a.events &&& WL_POSTMASTER_DEATH ≠ 0 →
      secure_read port ptr len (a :: rest) =
        ([readIoStep port ptr len, Step.modifyWaitEvent (effWaitforRead port a),
          Step.waitEventSetWait WAIT_EVENT_CLIENT_READ], RWResult.fatalAdminShutdown)) ∧
    (∀ (port : Port) (ptr len : Nat) (a : Attempt) (rest : List Attempt),
      retryCond port a → effWaitforWrite port a ≠ 0 →
      a.events &&& WL_POSTMASTER_DEATH ≠ 0 →
      secure_write port ptr len (a :: rest) =
        ([writeIoStep port ptr len, Step.modifyWaitEvent (effWaitforWrite port a),
          Step.waitEventSetWait WAIT_EVENT_CLIENT_WRITE], RWResult.fatalAdminShutdown)) ∧
    (∀ (port : Port) (ptr len : Nat) (pre : List Attempt) (a : Attempt)
        (rest : List Attempt),
      (∀ b ∈ pre, retryCond port b ∧ effWaitforRead port b ≠ 0 ∧
        b.events &&& WL_POSTMASTER_DEATH = 0) →
      retryCond port a → effWaitforRead port a ≠ 0 →
      a.events &&& WL_POSTMASTER_DEATH ≠ 0 →
      (secure_read port ptr len (pre ++ a :: rest)).2 = RWResult.fatalAdminShutdown) ∧
    (∀ (port : Port) (ptr len : Nat) (pre : List Attempt) (a : Attempt)
        (rest : List Attempt),
      (∀ b ∈ pre, retryCond port b ∧ effWaitforWrite port b ≠ 0 ∧
        b.events &&& WL_POSTMASTER_DEATH = 0) →
      retryCond port a → effWaitforWrite port a ≠ 0 →
      a.events &&& WL_POSTMASTER_DEATH ≠ 0 →
      (secure_write port ptr len (pre ++ a :: rest)).2 = RWResult.fatalAdminShutdown) ∧
    (∀ (n : Int) (e : Errno), RWResult.fatalAdminShutdown ≠ RWResult.ret n e) := by
  refine ⟨?_, ?_, ?_, ?_, ?_⟩
  · intro port ptr len a rest hc hw hd
    exact secure_read_death port ptr len a rest hc hw hd
  · intro port ptr len a rest hc hw hd
    exact secure_write_death port ptr len a rest hc hw hd
  · intro port ptr len pre a rest
    induction pre with
    | nil =>
      intro _ hc hw hd
      simp only [List.nil_append]
      rw [secure_read_death port ptr len a rest hc hw hd]
    | cons b pre ih =>
      intro hall hc hw hd
      obtain ⟨hcb, hwb, hdb⟩ := hall b (List.mem_cons_self b pre)
      rw [List.cons_append, secure_read_skip port ptr len b (pre ++ a :: rest) hcb hwb hdb]
      exact ih (fun c hc2 => hall c (List.mem_cons_of_mem b hc2)) hc hw hd
  · intro port ptr len pre a rest
    induction pre with
    | nil =>
      intro _ hc hw hd
      simp only [List.nil_append]
      rw [secure_write_death port ptr len a rest hc hw hd]
    | cons b pre ih =>
      intro hall hc hw hd
      obtain ⟨hcb, hwb, hdb⟩ := hall b (List.mem_cons_self b pre)
      rw [List.cons_append, secure_write_skip port ptr len b (pre ++ a :: rest) hcb hwb hdb]
      exact ih (fun c hc2 => hall c (List.mem_cons_of_mem b hc2)) hc hw hd
  · intro n e; simp

/-- Witness for C3: a blocking plaintext read whose first wait sees
postmaster death, after one benign would-block wake. -/
theorem C3_postmaster_death_fatal_witness :
    (secure_read ⟨false, false⟩ 0 8
      ([⟨-1, Errno.EAGAIN, 0, WL_LATCH_SET⟩] ++
        ⟨-1, Errno.EWOULDBLOCK, 0, WL_POSTMASTER_DEATH⟩ :: [])).2 =
      RWResult.fatalAdminShutdown :=
  C3_postmaster_death_fatal.2.2.1 ⟨false, false⟩ 0 8
    [⟨-1, Errno.EAGAIN, 0, WL_LATCH_SET⟩] ⟨-1, Errno.EWOULDBLOCK, 0, WL_POSTMASTER_DEATH⟩
    [] (by decide) (by decide) (by decide) (by decide)

/-- C4: on a non-blocking connection a would-block transport result is
returned to the caller at once: the call performs exactly one I/O step
plus the final non-blocking interrupt processing, and its trace contains
no ModifyWaitEvent and no WaitEventSetWait step. -/
theorem C4_nonblocking_immediate :
    (∀ (port : Port) (ptr len : Nat) (a : Attempt) (rest : List Attempt),
      port.noblock = true → a.n < 0 → wouldBlockErrno a.errno = true →
      secure_read port ptr len (a :: rest) =
        ([readIoStep port ptr len, Step.processClientReadInterrupt false],
          RWResult.ret a.n a.errno) ∧
      (∀ w, Step.modifyWaitEvent w ∉ (secure_read port ptr len (a :: rest)).1) ∧
      (∀ k, Step.waitEventSetWait k ∉ (secure_read port ptr len (a :: rest)).1)) ∧
    (∀ (port : Port) (ptr len : Nat) (a : Attempt) (rest : List Attempt),
      port.noblock = true → a.n < 0 → wouldBlockErrno a.errno = true →
      secure_write port ptr len (a :: rest) =
        ([writeIoStep port ptr len, Step.processClientWriteInterrupt false],
          RWResult.ret a.n a.errno) ∧
      (∀ w, Step.modifyWaitEvent w ∉ (secure_write port ptr len (a :: rest)).1) ∧
      (∀ k, Step.waitEventSetWait k ∉ (secure_write port ptr len (a :: rest)).1)) := by
  constructor
  · intro port ptr len a rest hnb _ _
    have hc : ¬ retryCond port a := fun hh => absurd hh.2.1 (by simp [hnb])
    refine ⟨secure_read_no_retry port ptr len a rest hc, ?_, ?_⟩
    · intro w
      rw [secure_read_no_retry port ptr len a rest hc]
      simp [modifyWaitEvent_ne_readIoStep]
    · intro k
      rw [secure_read_no_retry port ptr len a rest hc]
      simp [waitEventSetWait_ne_readIoStep]
  · intro port ptr len a rest hnb _ _
    have hc : ¬ retryCond port a := fun hh => absurd hh.2.1 (by simp [hnb])
    refine ⟨secure_write_no_retry port ptr len a rest hc, ?_, ?_⟩
    · intro w
      rw [secure_write_no_retry port ptr len a rest hc]
      simp [modifyWaitEvent_ne_writeIoStep]
    · intro k
      rw [secure_write_no_retry port ptr len a rest hc]
      simp [waitEventSetWait_ne_writeIoStep]

/-- Witness for C4: a non-blocking plaintext read that would-blocks is
returned untouched. -/
theorem C4_nonblocking_immediate_witness :
    secure_read ⟨false, true⟩ 0 5 [⟨-1, Errno.EWOULDBLOCK, 0, 0⟩] =
      ([readIoStep ⟨false, true⟩ 0 5, Step.processClientReadInterrupt false],
        RWResult.ret (-1) Errno.EWOULDBLOCK) :=
  (C4_nonblocking_immediate.1 ⟨false, true⟩ 0 5 ⟨-1, Errno.EWOULDBLOCK, 0, 0⟩ [] rfl
    (by decide) rfl).1

/-- Every ModifyWaitEvent step in a secure_read trace registers the
waitfor direction of a would-blocking attempt of the environment. -/
theorem secure_read_modify_mem (port : Port) (ptr len : Nat) :
    ∀ (env : List Attempt) (w : Nat),
      Step.modifyWaitEvent w ∈ (secure_read port ptr len env).1 →
      ∃ a ∈ env, retryCond port a ∧ w = effWaitforRead port a := by
  intro env
  induction env with
  | nil => intro w h; simp [secure_read_nil] at h
  | cons a rest ih =>
    intro w h
    by_cases hc : retryCond port a
    · by_cases hw : effWaitforRead port a = 0
      · rw [secure_read_assert port ptr len a rest hc hw] at h
        simp [modifyWaitEvent_ne_readIoStep] at h
      · by_cases hd : a.events &&& WL_POSTMASTER_DEATH = 0
        · by_cases hl : a.events &&& WL_LATCH_SET = 0
          · rw [secure_read_nolatch port ptr len a rest hc hw hd hl] at h
            simp [modifyWaitEvent_ne_readIoStep] at h
            rcases h with h | h
            · exact ⟨a, List.mem_cons_self a rest, hc, h⟩
            · obtain ⟨b, hb, h1, h2⟩ := ih w h
              exact ⟨b, List.mem_cons_of_mem a hb, h1, h2⟩
          · rw [secure_read_latch port ptr len a rest hc hw hd hl] at h
            simp [modifyWaitEvent_ne_readIoStep] at h
            rcases h with h | h
            · exact ⟨a, List.mem_cons_self a rest, hc, h⟩
            · obtain ⟨b, hb, h1, h2⟩ := ih w h
              exact ⟨b, List.mem_cons_of_mem a hb, h1, h2⟩
        · rw [secure_read_death port ptr len a rest hc hw hd] at h
          simp [modifyWaitEvent_ne_readIoStep] at h
          exact ⟨a, List.mem_cons_self a rest, hc, h⟩
    · rw [secure_read_no_retry port ptr len a rest hc] at h
      simp [modifyWaitEvent_ne_readIoStep] at h

/-- Every ModifyWaitEvent step in a secure_write trace registers the
waitfor direction of a would-blocking attempt of the environment. -/
theorem secure_write_modify_mem (port : Port) (ptr len : Nat) :
    ∀ (env : List Attempt) (w : Nat),
      Step.modifyWaitEvent w ∈ (secure_write port ptr len env).1 →
      ∃ a ∈ env, retryCond port a ∧ w = effWaitforWrite port a := by
  intro env
  induction env with
  | nil => intro w h; simp [secure_write_nil] at h
  | cons a rest ih =>
    intro w h
    by_cases hc : retryCond port a
    · by_cases hw : effWaitforWrite port a = 0
      · rw [secure_write_assert port ptr len a rest hc hw] at h
        simp [modifyWaitEvent_ne_writeIoStep] at h
      · by_cases hd : a.events &&& WL_POSTMASTER_DEATH = 0
        · by_cases hl : a.events &&& WL_LATCH_SET = 0
          · rw [secure_write_nolatch port ptr len a rest hc hw hd hl] at h
            simp [modifyWaitEvent_ne_writeIoStep] at h
            rcases h with h | h
            · exact ⟨a, List.mem_cons_self a rest, hc, h⟩
            · obtain ⟨b, hb, h1, h2⟩ := ih w h
              exact ⟨b, List.mem_cons_of_mem a hb, h1, h2⟩
          · rw [secure_write_latch port ptr len a rest hc hw hd hl] at h
            simp [modifyWaitEvent_ne_writeIoStep] at h
            rcases h with h | h
            · exact ⟨a, List.mem_cons_self a rest, hc, h⟩
            · obtain ⟨b, hb, h1, h2⟩ := ih w h
              exact ⟨b, List.mem_cons_of_mem a hb, h1, h2⟩
        · rw [secure_write_death port ptr len a rest hc hw hd] at h
          simp [modifyWaitEvent_ne_writeIoStep] at h
          exact ⟨a, List.mem_cons_self a rest, hc, h⟩
    · rw [secure_write_no_retry port ptr len a rest hc] at h
      simp [modifyWaitEvent_ne_writeIoStep] at h

/-- C7: on the plaintext path every direction registered with the wait
set is socket-readable for a read and socket-writeable for a write; on
the encrypted path it is whatever direction the provider reported in its
waitfor out-parameter on a would-blocking attempt, which need not match
the call's nominal direction. -/
theorem C7_wait_direction :
    (∀ (port : Port) (ptr len : Nat) (env : List Attempt) (w : Nat),
      port.ssl_in_use = false →
      Step.modifyWaitEvent w ∈ (secure_read port ptr len env).1 →
      w = WL_SOCKET_READABLE) ∧
    (∀ (port : Port) (ptr len : Nat) (env : List Attempt) (w : Nat),
      port.ssl_in_use = false →
      Step.modifyWaitEvent w ∈ (secure_write port ptr len env).1 →
      w = WL_SOCKET_WRITEABLE) ∧
    (∀ (port : Port) (ptr len : Nat) (env : List Attempt) (w : Nat),
      port.ssl_in_use = true →
      Step.modifyWaitEvent w ∈ (secure_read port ptr len env).1 →
      ∃ a ∈ env, retryCond port a ∧ w = a.sslWaitfor) ∧
    (∀ (port : Port) (ptr len : Nat) (env : List Attempt) (w : Nat),
      port.ssl_in_use = true →
      Step.modifyWaitEvent w ∈ (secure_write port ptr len env).1 →
      ∃ a ∈ env, retryCond port a ∧ w = a.sslWaitfor) := by
  refine ⟨?_, ?_, ?_, ?_⟩
  · intro port ptr len env w hs h
    obtain ⟨a, _, _, hw⟩ := secure_read_modify_mem port ptr len env w h
    simpa [effWaitforRead, hs] using hw
  · intro port ptr len env w hs h
    obtain ⟨a, _, _, hw⟩ := secure_write_modify_mem port ptr len env w h
    simpa [effWaitforWrite, hs] using hw
  · intro port ptr len env w hs h
    obtain ⟨a, ha, hc, hw⟩ := secure_read_modify_mem port ptr len env w h
    exact ⟨a, ha, hc, by simpa [effWaitforRead, hs] using hw⟩
  · intro port ptr len env w hs h
    obtain ⟨a, ha, hc, hw⟩ := secure_write_modify_mem port ptr len env w h
    exact ⟨a, ha, hc, by simpa [effWaitforWrite, hs] using hw⟩

/-- Witness for C7: an encrypted read whose provider asks to wait for
socket-writeable readiness registers exactly that direction. -/
theorem C7_wait_direction_witness :
    ∃ a ∈ [(⟨-1, Errno.EAGAIN, WL_SOCKET_WRITEABLE, WL_POSTMASTER_DEATH⟩ : Attempt)],
      retryCond ⟨true, false⟩ a ∧ WL_SOCKET_WRITEABLE = a.sslWaitfor :=
  C7_wait_direction.2.2.1 ⟨true, false⟩ 3 4
    [⟨-1, Errno.EAGAIN, WL_SOCKET_WRITEABLE, WL_POSTMASTER_DEATH⟩] WL_SOCKET_WRITEABLE
    rfl (by decide)

/-- Every step of a secure_read trace is the call's own I/O step, a wait
registration, the wait itself, a latch reset, or read-interrupt
processing. -/
theorem secure_read_steps_shape (port : Port) (ptr len : Nat) :
    ∀ (env : List Attempt), ∀ s ∈ (secure_read port ptr len env).1,
      s = readIoStep port ptr len ∨ (∃ w, s = Step.modifyWaitEvent w) ∨
      s = Step.waitEventSetWait WAIT_EVENT_CLIENT_READ ∨ s = Step.resetLatch ∨
      (∃ b, s = Step.processClientReadInterrupt b) := by
  intro env
  induction env with
  | nil => intro s h; simp [secure_read_nil] at h
  | cons a rest ih =>
    intro s h
    by_cases hc : retryCond port a
    · by_cases hw : effWaitforRead port a = 0
      · rw [secure_read_assert port ptr len a rest hc hw] at h
        simp at h
        exact Or.inl h
      · by_cases hd : a.events &&& WL_POSTMASTER_DEATH = 0
        · by_cases hl : a.events &&& WL_LATCH_SET = 0
          · rw [secure_read_nolatch port ptr len a rest hc hw hd hl] at h
            simp at h
            rcases h with h | h | h | h
            · exact Or.inl h
            · exact Or.inr (Or.inl ⟨_, h⟩)
            · exact Or.inr (Or.inr (Or.inl h))
            · exact ih s h
          · rw [secure_read_latch port ptr len a rest hc hw hd hl] at h
            simp at h
            rcases h with h | h | h | h | h | h
            · exact Or.inl h
            · exact Or.inr (Or.inl ⟨_, h⟩)
            · exact Or.inr (Or.inr (Or.inl h))
            · exact Or.inr (Or.inr (Or.inr (Or.inl h)))
            · exact Or.inr (Or.inr (Or.inr (Or.inr ⟨_, h⟩)))
            · exact ih s h
        · rw [secure_read_death port ptr len a rest hc hw hd] at h
          simp at h
          rcases h with h | h | h
          · exact Or.inl h
          · exact Or.inr (Or.inl ⟨_, h⟩)
          · exact Or.inr (Or.inr (Or.inl h))
    · rw [secure_read_no_retry port ptr len a rest hc] at h
      simp at h
      rcases h with h | h
      · exact Or.inl h
      · exact Or.inr (Or.inr (Or.inr (Or.inr ⟨_, h⟩)))

/-- Every step of a secure_write trace is the call's own I/O step, a
wait registration, the wait itself, a latch reset, or write-interrupt
processing. -/
theorem secure_write_steps_shape (port : Port) (ptr len : Nat) :
    ∀ (env : List Attempt), ∀ s ∈ (secure_write port ptr len env).1,
      s = writeIoStep port ptr len ∨ (∃ w, s = Step.modifyWaitEvent w) ∨
      s = Step.waitEventSetWait WAIT_EVENT_CLIENT_WRITE ∨ s = Step.resetLatch ∨
      (∃ b, s = Step.processClientWriteInterrupt b) := by
  intro env
  induction env with
  | nil => intro s h; simp [secure_write_nil] at h
  | cons a rest ih =>
    intro s h
    by_cases hc : retryCond port a
    · by_cases hw : effWaitforWrite port a = 0
      · rw [secure_write_assert port ptr len a rest hc hw] at h
        simp at h
        exact Or.inl h
      · by_cases hd : a.events &&& WL_POSTMASTER_DEATH = 0
        · by_cases hl : a.events &&& WL_LATCH_SET = 0
          · rw [secure_write_nolatch port ptr len a rest hc hw hd hl] at h
            simp at h
            rcases h with h | h | h | h
            · exact Or.inl h
            · exact Or.inr (Or.inl ⟨_, h⟩)
            · exact Or.inr (Or.inr (Or.inl h))
            · exact ih s h
          · rw [secure_write_latch port ptr len a rest hc hw hd hl] at h
            simp at h
            rcases h with h | h | h | h | h | h
            · exact Or.inl h
            · exact Or.inr (Or.inl ⟨_, h⟩)
            · exact Or.inr (Or.inr (Or.inl h))
            · exact Or.inr (Or.inr (Or.inr (Or.inl h)))
            · exact Or.inr (Or.inr (Or.inr (Or.inr ⟨_, h⟩)))
            · exact ih s h
        · rw [secure_write_death port ptr len a rest hc hw hd] at h
          simp at h
          rcases h with h | h | h
          · exact Or.inl h
          · exact Or.inr (Or.inl ⟨_, h⟩)
          · exact Or.inr (Or.inr (Or.inl h))
    · rw [secure_write_no_retry port ptr len a rest hc] at h
      simp at h
      rcases h with h | h
      · exact Or.inl h
      · exact Or.inr (Or.inr (Or.inr (Or.inr ⟨_, h⟩)))

/-- C8: every underlying I/O attempt a secure_read or secure_write call
performs uses the caller's own buffer pointer and length; whenever the
retry condition fails on an attempt — in particular on any non-negative
(possibly partial, possibly zero) transfer count — that attempt's result
is returned at once after a single I/O step, with no internal retry. -/
theorem C8_identical_retry_partial_returned :
    (∀ (port : Port) (ptr len : Nat) (env : List Attempt) (p l : Nat),
      (Step.be_tls_read p l ∈ (secure_read port ptr len env).1 ∨
        Step.secure_raw_read p l ∈ (secure_read port ptr len env).1) →
      p = ptr ∧ l = len) ∧
    (∀ (port : Port) (ptr len : Nat) (env : List Attempt) (p l : Nat),
      (Step.be_tls_write p l ∈ (secure_write port ptr len env).1 ∨
        Step.secure_raw_write p l ∈ (secure_write port ptr len env).1) →
      p = ptr ∧ l = len) ∧
    (∀ (port : Port) (ptr len : Nat) (a : Attempt) (rest : List Attempt),
      ¬ retryCond port a →
      secure_read port ptr len (a :: rest) =
        ([readIoStep port ptr len, Step.processClientReadInterrupt false],
          RWResult.ret a.n a.errno)) ∧
    (∀ (port : Port) (ptr len : Nat) (a : Attempt) (rest : List Attempt),
      ¬ retryCond port a →
      secure_write port ptr len (a :: rest) =
        ([writeIoStep port ptr len, Step.processClientWriteInterrupt false],
          RWResult.ret a.n a.errno)) ∧
    (∀ (port : Port) (a : Attempt), 0 ≤ a.n → ¬ retryCond port a) := by
  refine ⟨?_, ?_, ?_, ?_, ?_⟩
  · intro port ptr len env p l h
    have hio : ∀ (p l : Nat),
        (Step.be_tls_read p l = readIoStep port ptr len ∨
          Step.secure_raw_read p l = readIoStep port ptr len) → p = ptr ∧ l = len := by
      intro p l
      unfold readIoStep; split <;> rintro (h | h) <;> simp_all
    rcases h with h | h <;>
      rcases secure_read_steps_shape port ptr len env _ h with h1 | h1 | h1 | h1 | h1 <;>
        first
          | exact hio p l (Or.inl h1)
          | exact hio p l (Or.inr h1)
          | simp at h1
  · intro port ptr len env p l h
    have hio : ∀ (p l : Nat),
        (Step.be_tls_write p l = writeIoStep port ptr len ∨
          Step.secure_raw_write p l = writeIoStep port ptr len) → p = ptr ∧ l = len := by
      intro p l
      unfold writeIoStep; split <;> rintro (h | h) <;> simp_all
    rcases h with h | h <;>
      rcases secure_write_steps_shape port ptr len env _ h with h1 | h1 | h1 | h1 | h1 <;>
        first
          | exact hio p l (Or.inl h1)
          | exact hio p l (Or.inr h1)
          | simp at h1
  · intro port ptr len a rest hc
    exact secure_read_no_retry port ptr len a rest hc
  · intro port ptr len a rest hc
    exact secure_write_no_retry port ptr len a rest hc
  · intro port a h hh
    exact absurd hh.1 (not_lt.mpr h)

/-- Witness for C8: a blocking read whose first attempt transfers 2 of 6
bytes returns 2 at once, leaving later environment entries unconsumed. -/
theorem C8_identical_retry_partial_returned_witness :
    secure_read ⟨false, false⟩ 1 6
        [⟨2, Errno.other, 0, 0⟩, ⟨9, Errno.other, 0, 0⟩] =
      ([readIoStep ⟨false, false⟩ 1 6, Step.processClientReadInterrupt false],
        RWResult.ret 2 Errno.other) :=
  C8_identical_retry_partial_returned.2.2.1 ⟨false, false⟩ 1 6 ⟨2, Errno.other, 0, 0⟩
    [⟨9, Errno.other, 0, 0⟩] (by decide)

/-- Recognizer for read-interrupt-processing steps with a given
blocking flag. -/
def isProcessClientReadInterrupt (blocking : Bool) (s : Step) : Bool :=
  match s with
  | Step.processClientReadInterrupt c => c == blocking
  | _ => false

/-- Recognizer for write-interrupt-processing steps with a given
blocking flag. -/
def isProcessClientWriteInterrupt (blocking : Bool) (s : Step) : Bool :=
  match s with
  | Step.processClientWriteInterrupt c => c == blocking
  | _ => false

/-- Recognizer for latch-reset steps. -/
def isResetLatch (s : Step) : Bool :=
  match s with
  | Step.resetLatch => true
  | _ => false

/-- Recognizer for a normal return. -/
def isRet (r : RWResult) : Bool :=
  match r with
  | RWResult.ret _ _ => true
  | _ => false

theorem iprReadIo (b : Bool) (port : Port) (ptr len : Nat) :
    isProcessClientReadInterrupt b (readIoStep port ptr len) = false := by
  unfold readIoStep; split <;> rfl

theorem iprModify (b : Bool) (w : Nat) :
    isProcessClientReadInterrupt b (Step.modifyWaitEvent w) = false := rfl

theorem iprWait (b : Bool) (k : Nat) :
    isProcessClientReadInterrupt b (Step.waitEventSetWait k) = false := rfl

theorem iprReset (b : Bool) :
    isProcessClientReadInterrupt b Step.resetLatch = false := rfl

theorem iprProc (b c : Bool) :
    isProcessClientReadInterrupt b (Step.processClientReadInterrupt c) = (c == b) := rfl

theorem ipwWriteIo (b : Bool) (port : Port) (ptr len : Nat) :
    isProcessClientWriteInterrupt b (writeIoStep port ptr len) = false := by
  unfold writeIoStep; split <;> rfl

theorem ipwModify (b : Bool) (w : Nat) :
    isProcessClientWriteInterrupt b (Step.modifyWaitEvent w) = false := rfl

theorem ipwWait (b : Bool) (k : Nat) :
    isProcessClientWriteInterrupt b (Step.waitEventSetWait k) = false := rfl

theorem ipwReset (b : Bool) :
    isProcessClientWriteInterrupt b Step.resetLatch = false := rfl

theorem ipwProc (b c : Bool) :
    isProcessClientWriteInterrupt b (Step.processClientWriteInterrupt c) = (c == b) := rfl

theorem irlReadIo (port : Port) (ptr len : Nat) :
    isResetLatch (readIoStep port ptr len) = false := by
  unfold readIoStep; split <;> rfl

theorem irlWriteIo (port : Port) (ptr len : Nat) :
    isResetLatch (writeIoStep port ptr len) = false := by
  unfold writeIoStep; split <;> rfl

theorem irlModify (w : Nat) : isResetLatch (Step.modifyWaitEvent w) = false := rfl

theorem irlWait (k : Nat) : isResetLatch (Step.waitEventSetWait k) = false := rfl

theorem irlReset : isResetLatch Step.resetLatch = true := rfl

theorem irlProcRead (c : Bool) :
    isResetLatch (Step.processClientReadInterrupt c) = false := rfl

theorem irlProcWrite (c : Bool) :
    isResetLatch (Step.processClientWriteInterrupt c) = false := rfl

/-- A secure_read trace contains the non-blocking interrupt-processing
step exactly once when the call returns normally and never otherwise. -/
theorem secure_read_procFalse_count (port : Port) (ptr len : Nat) :
    ∀ (env : List Attempt),
      (secure_read port ptr len env).1.countP (isProcessClientReadInterrupt false) =
        (if isRet (secure_read port ptr len env).2 then 1 else 0) := by
  intro env
  induction env with
  | nil => simp [secure_read_nil, isRet]
  | cons a rest ih =>
    by_cases hc : retryCond port a
    · by_cases hw : effWaitforRead port a = 0
      · rw [secure_read_assert port ptr len a rest hc hw]
        simp [List.countP_cons, iprReadIo, isRet]
      · by_cases hd : a.events &&& WL_POSTMASTER_DEATH = 0
        · by_cases hl : a.events &&& WL_LATCH_SET = 0
          · rw [secure_read_nolatch port ptr len a rest hc hw hd hl]
            simpa [List.countP_cons, iprReadIo, iprModify, iprWait] using ih
          · rw [secure_read_latch port ptr len a rest hc hw hd hl]
            simpa [List.countP_cons, iprReadIo, iprModify, iprWait, iprReset,
              iprProc] using ih
        · rw [secure_read_death port ptr len a rest hc hw hd]
          simp [List.countP_cons, iprReadIo, iprModify, iprWait, isRet]
    · rw [secure_read_no_retry port ptr len a rest hc]
      simp [List.countP_cons, iprReadIo, iprProc, isRet]

/-- A secure_write trace contains the non-blocking interrupt-processing
step exactly once when the call returns normally and never otherwise. -/
theorem secure_write_procFalse_count (port : Port) (ptr len : Nat) :
    ∀ (env : List Attempt),
      (secure_write port ptr len env).1.countP (isProcessClientWriteInterrupt false) =
        (if isRet (secure_write port ptr len env).2 then 1 else 0) := by
  intro env
  induction env with
  | nil => simp [secure_write_nil, isRet]
  | cons a rest ih =>
    by_cases hc : retryCond port a
    · by_cases hw : effWaitforWrite port a = 0
      · rw [secure_write_assert port ptr len a rest hc hw]
        simp [List.countP_cons, ipwWriteIo, isRet]
      · by_cases hd : a.events &&& WL_POSTMASTER_DEATH = 0
        · by_cases hl : a.events &&& WL_LATCH_SET = 0
          · rw [secure_write_nolatch port ptr len a rest hc hw hd hl]
            simpa [List.countP_cons, ipwWriteIo, ipwModify, ipwWait] using ih
          · rw [secure_write_latch port ptr len a rest hc hw hd hl]
            simpa [List.countP_cons, ipwWriteIo, ipwModify, ipwWait, ipwReset,
              ipwProc] using ih
        · rw [secure_write_death port ptr len a rest hc hw hd]
          simp [List.countP_cons, ipwWriteIo, ipwModify, ipwWait, isRet]
    · rw [secure_write_no_retry port ptr len a rest hc]
      simp [List.countP_cons, ipwWriteIo, ipwProc, isRet]

/-- In a secure_read trace, blocking-aware interrupt processing occurs
exactly as often as the latch is reset: once per observed latch wake. -/
theorem secure_read_procTrue_count (port : Port) (ptr len : Nat) :
    ∀ (env : List Attempt),
      (secure_read port ptr len env).1.countP (isProcessClientReadInterrupt true) =
        (secure_read port ptr len env).1.countP isResetLatch := by
  intro env
  induction env with
  | nil => simp [secure_read_nil]
  | cons a rest ih =>
    by_cases hc : retryCond port a
    · by_cases hw : effWaitforRead port a = 0
      · rw [secure_read_assert port ptr len a rest hc hw]
        simp [List.countP_cons, iprReadIo, irlReadIo]
      · by_cases hd : a.events &&& WL_POSTMASTER_DEATH = 0
        · by_cases hl : a.events &&& WL_LATCH_SET = 0
          · rw [secure_read_nolatch port ptr len a rest hc hw hd hl]
            simpa [List.countP_cons, iprReadIo, iprModify, iprWait, irlReadIo,
              irlModify, irlWait] using ih
          · rw [secure_read_latch port ptr len a rest hc hw hd hl]
            simpa [List.countP_cons, iprReadIo, iprModify, iprWait, iprReset,
              iprProc, irlReadIo, irlModify, irlWait, irlReset, irlProcRead] using ih
        · rw [secure_read_death port ptr len a rest hc hw hd]
          simp [List.countP_cons, iprReadIo, iprModify, iprWait, irlReadIo,
            irlModify, irlWait]
    · rw [secure_read_no_retry port ptr len a rest hc]
      simp [List.countP_cons, iprReadIo, iprProc, irlReadIo, irlProcRead]

/-- In a secure_write trace, blocking-aware interrupt processing occurs
exactly as often as the latch is reset: once per observed latch wake. -/
theorem secure_write_procTrue_count (port : Port) (ptr len : Nat) :
    ∀ (env : List Attempt),
      (secure_write port ptr len env).1.countP (isProcessClientWriteInterrupt true) =
        (secure_write port ptr len env).1.countP isResetLatch := by
  intro env
  induction env with
  | nil => simp [secure_write_nil]
  | cons a rest ih =>
    by_cases hc : retryCond port a
    · by_cases hw : effWaitforWrite port a = 0
      · rw [secure_write_assert port ptr len a rest hc hw]
        simp [List.countP_cons, ipwWriteIo, irlWriteIo]
      · by_cases hd : a.events &&& WL_POSTMASTER_DEATH = 0
        · by_cases hl : a.events &&& WL_LATCH_SET = 0
          · rw [secure_write_nolatch port ptr len a rest hc hw hd hl]
            simpa [List.countP_cons, ipwWriteIo, ipwModify, ipwWait, irlWriteIo,
              irlModify, irlWait] using ih
          · rw [secure_write_latch port ptr len a rest hc hw hd hl]
            simpa [List.countP_cons, ipwWriteIo, ipwModify, ipwWait, ipwReset,
              ipwProc, irlWriteIo, irlModify, irlWait, irlReset, irlProcWrite] using ih
        · rw [secure_write_death port ptr len a rest hc hw hd]
          simp [List.countP_cons, ipwWriteIo, ipwModify, ipwWait, irlWriteIo,
            irlModify, irlWait]
    · rw [secure_write_no_retry port ptr len a rest hc]
      simp [List.countP_cons, ipwWriteIo, ipwProc, irlWriteIo, irlProcWrite]

/-- C9: a latch wake during a blocking wait resets the latch, runs
blocking-aware interrupt processing exactly once, and retries — passing
the remaining iterations' outcome through unchanged, so the wake itself
never yields an error; across any execution, blocking-aware interrupt
processing runs exactly once per latch reset, and non-blocking
interrupt processing runs exactly once on every normal return path and
never on a path that does not return. -/
theorem C9_interrupt_processing :
    (∀ (port : Port) (ptr len : Nat) (a : Attempt) (rest : List Attempt),
      retryCond port a → effWaitforRead port a ≠ 0 →
      a.events &&& WL_POSTMASTER_DEATH = 0 → a.events &&& WL_LATCH_SET ≠ 0 →
      secure_read port ptr len (a :: rest) =
        (readIoStep port ptr len :: Step.modifyWaitEvent (effWaitforRead port a) ::
          Step.waitEventSetWait WAIT_EVENT_CLIENT_READ :: Step.resetLatch ::
          Step.processClientReadInterrupt true :: (secure_read port ptr len rest).1,
          (secure_read port ptr len rest).2)) ∧
    (∀ (port : Port) (ptr len : Nat) (a : Attempt) (rest : List Attempt),
      retryCond port a → effWaitforWrite port a ≠ 0 →
      a.events &&& WL_POSTMASTER_DEATH = 0 → a.events &&& WL_LATCH_SET ≠ 0 →
      secure_write port ptr len (a :: rest) =
        (writeIoStep port ptr len :: Step.modifyWaitEvent (effWaitforWrite port a) ::
          Step.waitEventSetWait WAIT_EVENT_CLIENT_WRITE :: Step.resetLatch ::
          Step.processClientWriteInterrupt true :: (secure_write port ptr len rest).1,
          (secure_write port ptr len rest).2)) ∧
    (∀ (port : Port) (ptr len : Nat) (env : List Attempt),
      (secure_read port ptr len env).1.countP (isProcessClientReadInterrupt false) =
        (if isRet (secure_read port ptr len env).2 then 1 else 0)) ∧
    (∀ (port : Port) (ptr len : Nat) (env : List Attempt),
      (secure_write port ptr len env).1.countP (isProcessClientWriteInterrupt false) =
        (if isRet (secure_write port ptr len env).2 then 1 else 0)) ∧
    (∀ (port : Port) (ptr len : Nat) (env : List Attempt),
      (secure_read port ptr len env).1.countP (isProcessClientReadInterrupt true) =
        (secure_read port ptr len env).1.countP isResetLatch) ∧
    (∀ (port : Port) (ptr len : Nat) (env : List Attempt),
      (secure_write port ptr len env).1.countP (isProcessClientWriteInterrupt true) =
        (secure_write port ptr len env).1.countP isResetLatch) :=
  ⟨secure_read_latch, secure_write_latch,
    fun port ptr len => secure_read_procFalse_count port ptr len,
    fun port ptr len => secure_write_procFalse_count port ptr len,
    fun port ptr len => secure_read_procTrue_count port ptr len,
    fun port ptr len => secure_write_procTrue_count port ptr len⟩

/-- Witness for C9: a blocking plaintext read woken once by the latch
processes the wake exactly once and then retries. -/
theorem C9_interrupt_processing_witness :
    secure_read ⟨false, false⟩ 0 4
        [⟨-1, Errno.EAGAIN, 0, WL_LATCH_SET⟩, ⟨2, Errno.other, 0, 0⟩] =
      (readIoStep ⟨false, false⟩ 0 4 ::
        Step.modifyWaitEvent
          (effWaitforRead ⟨false, false⟩ ⟨-1, Errno.EAGAIN, 0, WL_LATCH_SET⟩) ::
        Step.waitEventSetWait WAIT_EVENT_CLIENT_READ :: Step.resetLatch ::
        Step.processClientReadInterrupt true ::
        (secure_read ⟨false, false⟩ 0 4 [⟨2, Errno.other, 0, 0⟩]).1,
        (secure_read ⟨false, false⟩ 0 4 [⟨2, Errno.other, 0, 0⟩]).2) :=
  C9_interrupt_processing.1 ⟨false, false⟩ 0 4 ⟨-1, Errno.EAGAIN, 0, WL_LATCH_SET⟩
    [⟨2, Errno.other, 0, 0⟩] (by decide) (by decide) (by decide) (by decide)

/-- If every would-blocking attempt carries a nonzero read-wait
direction, secure_read never reaches Assert(waitfor) with waitfor 0. -/
theorem secure_read_no_assert (port : Port) (ptr len : Nat) :
    ∀ (env : List Attempt),
      (∀ a ∈ env, retryCond port a → effWaitforRead port a ≠ 0) →
      (secure_read port ptr len env).2 ≠ RWResult.assertFailed := by
  intro env
  induction env with
  | nil => intro _ h; simp [secure_read_nil] at h
  | cons a rest ih =>
    intro hall h
    by_cases hc : retryCond port a
    · have hw := hall a (List.mem_cons_self a rest) hc
      by_cases hd : a.events &&& WL_POSTMASTER_DEATH = 0
      · rw [secure_read_skip port ptr len a rest hc hw hd] at h
        exact ih (fun b hb => hall b (List.mem_cons_of_mem a hb)) h
      · rw [secure_read_death port ptr len a rest hc hw hd] at h
        simp at h
    · rw [secure_read_no_retry port ptr len a rest hc] at h
      simp at h

/-- If every would-blocking attempt carries a nonzero write-wait
direction, secure_write never reaches Assert(waitfor) with waitfor 0. -/
theorem secure_write_no_assert (port : Port) (ptr len : Nat) :
    ∀ (env : List Attempt),
      (∀ a ∈ env, retryCond port a → effWaitforWrite port a ≠ 0) →
      (secure_write port ptr len env).2 ≠ RWResult.assertFailed := by
  intro env
  induction env with
  | nil => intro _ h; simp [secure_write_nil] at h
  | cons a rest ih =>
    intro hall h
    by_cases hc : retryCond port a
    · have hw := hall a (List.mem_cons_self a rest) hc
      by_cases hd : a.events &&& WL_POSTMASTER_DEATH = 0
      · rw [secure_write_skip port ptr len a rest hc hw hd] at h
        exact ih (fun b hb => hall b (List.mem_cons_of_mem a hb)) h
      · rw [secure_write_death port ptr len a rest hc hw hd] at h
        simp at h
    · rw [secure_write_no_retry port ptr len a rest hc] at h
      simp at h

/-- C10: Assert(waitfor) cannot fail: on a plaintext connection waitfor
is unconditionally the matching socket direction, and on an encrypted
connection it is nonzero provided the provider sets a direction whenever
it reports would-block. -/
theorem C10_assert_waitfor_nonzero :
    (∀ (port : Port) (ptr len : Nat) (env : List Attempt),
      port.ssl_in_use = false →
      (secure_read port ptr len env).2 ≠ RWResult.assertFailed) ∧
    (∀ (port : Port) (ptr len : Nat) (env : List Attempt),
      port.ssl_in_use = false →
      (secure_write port ptr len env).2 ≠ RWResult.assertFailed) ∧
    (∀ (port : Port) (ptr len : Nat) (env : List Attempt),
      (∀ a ∈ env, retryCond port a → a.sslWaitfor ≠ 0) →
      (secure_read port ptr len env).2 ≠ RWResult.assertFailed) ∧
    (∀ (port : Port) (ptr len : Nat) (env : List Attempt),
      (∀ a ∈ env, retryCond port a → a.sslWaitfor ≠ 0) →
      (secure_write port ptr len env).2 ≠ RWResult.assertFailed) := by
  refine ⟨?_, ?_, ?_, ?_⟩
  · intro port ptr len env hs
    refine secure_read_no_assert port ptr len env fun a _ _ => ?_
    simp [effWaitforRead, hs, WL_SOCKET_READABLE]
  · intro port ptr len env hs
    refine secure_write_no_assert port ptr len env fun a _ _ => ?_
    simp [effWaitforWrite, hs, WL_SOCKET_WRITEABLE]
  · intro port ptr len env hall
    refine secure_read_no_assert port ptr len env fun a ha hc => ?_
    unfold effWaitforRead
    cases hs : port.ssl_in_use
    · simp [WL_SOCKET_READABLE]
    · simpa using hall a ha hc
  · intro port ptr len env hall
    refine secure_write_no_assert port ptr len env fun a ha hc => ?_
    unfold effWaitforWrite
    cases hs : port.ssl_in_use
    · simp [WL_SOCKET_WRITEABLE]
    · simpa using hall a ha hc

/-- Witness for C10: a blocking plaintext read that would-blocks with an
untouched waitfor out-parameter still cannot trip the assertion. -/
theorem C10_assert_waitfor_nonzero_witness :
    (secure_read ⟨false, false⟩ 0 1 [⟨-1, Errno.EAGAIN, 0, 0⟩]).2 ≠
      RWResult.assertFailed :=
  C10_assert_waitfor_nonzero.1 ⟨false, false⟩ 0 1 [⟨-1, Errno.EAGAIN, 0, 0⟩] rfl

end BeSecure
